import Mathlib

/-!
Verification development for the WhatsApp MCP server core
(`src/models/cache.py` and `src/websocket/client.py`).

The Python code is shallowly embedded: each method becomes a pure Lean
function, with wall-clock time passed explicitly as a `Nat` and the
mutable object state threaded as an explicit record. Python dicts are
modelled as association lists that preserve insertion order (CPython
dict semantics); `asyncio` interleavings are resolved by passing the
outcome of each awaited operation as an explicit argument.
-/

/-! ## Cache model (`src/models/cache.py`)

`CacheManager` holds two tiers:
  * `memory_cache : ExpiringDict(max_len=1000, max_age_seconds=ttl)` —
    every entry expires `ttl` (the manager default) seconds after it was
    written, regardless of any per-call `ttl` argument;
  * `disk_cache : diskcache.Cache` — `set(key, value, expire=ttl or self.ttl)`
    stores an absolute expiry instant; an entry is visible while
    `now < expiresAt`.
Values are kept polymorphic in `V`. -/

/-- One memory-tier entry: key, value, and the instant it was written
(`ExpiringDict` stores `(value, time.time())`). -/
structure MemEntry (V : Type) where
  key : String
  value : V
  writtenAt : Nat
deriving Repr, DecidableEq

/-- One disk-tier entry: key, value, and absolute expiry instant
(`diskcache` stores `store_time + expire`). -/
structure DiskEntry (V : Type) where
  key : String
  value : V
  expiresAt : Nat
deriving Repr, DecidableEq

/-- State of a `CacheManager`: the constructor argument `ttl` (default
86400) and the two tiers. The `asyncio.Lock` serialises disk access and
is invisible in this single-task model. -/
structure CacheState (V : Type) where
  defaultTtl : Nat
  memory : List (MemEntry V)
  disk : List (DiskEntry V)
deriving Repr, DecidableEq

/-- The `ExpiringDict` bound `max_len=1000` from `CacheManager.__init__`. -/
def memMaxLen : Nat := 1000

/-- `ExpiringDict.__setitem__`: when the dict is at capacity the oldest
item is evicted (`popitem(last=False)`) before the write. -/
def memEvict {V : Type} (mem : List (MemEntry V)) : List (MemEntry V) :=
  if memMaxLen ≤ mem.length then mem.tail else mem

/-- `OrderedDict.__setitem__`: an existing key keeps its position and gets
the new value and timestamp; a fresh key is appended at the end. -/
def memWrite {V : Type} (k : String) (v : V) (now : Nat) :
    List (MemEntry V) → List (MemEntry V)
  | [] => [⟨k, v, now⟩]
  | e :: rest =>
    if e.key == k then ⟨k, v, now⟩ :: rest else e :: memWrite k v now rest

/-- `self.memory_cache[key] = value`: the full `ExpiringDict` write. -/
def memSet {V : Type} (mem : List (MemEntry V)) (k : String) (v : V)
    (now : Nat) : List (MemEntry V) :=
  memWrite k v now (memEvict mem)

/-- `ExpiringDict.get(key)`: a hit while `time.time() - writtenAt < max_age`
(`max_age` is the manager default TTL), otherwise `None`. -/
def memGet {V : Type} (mem : List (MemEntry V)) (maxAge : Nat) (k : String)
    (now : Nat) : Option V :=
  match mem.find? (fun e => e.key == k) with
  | some e => if now - e.writtenAt < maxAge then some e.value else none
  | none => none

/-- `diskcache.Cache.set(key, value, expire=d)`: stores expiry `now + d`,
replacing any entry for the key. -/
def diskSet {V : Type} (k : String) (v : V) (expiresAt : Nat) :
    List (DiskEntry V) → List (DiskEntry V)
  | [] => [⟨k, v, expiresAt⟩]
  | e :: rest =>
    if e.key == k then ⟨k, v, expiresAt⟩ :: rest
    else e :: diskSet k v expiresAt rest

/-- `key in disk_cache` / `disk_cache[key]`: both respect expiry, a row is
visible while `now < expiresAt`. -/
def diskGet {V : Type} (disk : List (DiskEntry V)) (k : String) (now : Nat) :
    Option V :=
  match disk.find? (fun e => e.key == k) with
  | some e => if now < e.expiresAt then some e.value else none
  | none => none

/-- Python's `ttl or self.ttl` from `CacheManager.set`: the per-call value
when it is given and truthy (nonzero), else the manager default. -/
def ttlOrDefault (ttl : Option Nat) (d : Nat) : Nat :=
  match ttl with
  | some t => if t == 0 then d else t
  | none => d

/-- `CacheManager.set(key, value, ttl)`: write the memory tier (which
keeps its own `max_age = defaultTtl`), then the disk tier with expiry
`now + (ttl or self.ttl)`. -/
def cacheSet {V : Type} (s : CacheState V) (k : String) (v : V)
    (ttl : Option Nat) (now : Nat) : CacheState V :=
  { s with
    memory := memSet s.memory k v now
    disk := diskSet k v (now + ttlOrDefault ttl s.defaultTtl) s.disk }

/-- `CacheManager.get(key)`: try the memory tier; on miss try the disk
tier and, on a disk hit, repopulate the memory tier. Returns the value
found (if any) together with the post-call state. -/
def cacheGet {V : Type} (s : CacheState V) (k : String) (now : Nat) :
    Option V × CacheState V :=
  match memGet s.memory s.defaultTtl k now with
  | some v => (some v, s)
  | none =>
    match diskGet s.disk k now with
    | some v => (some v, { s with memory := memSet s.memory k v now })
    | none => (none, s)

/-- `CacheManager.set_qr_code(qr_code)`: `set("qr_code", qr, ttl=300)`. -/
def setQrCode (s : CacheState String) (qr : String) (now : Nat) :
    CacheState String :=
  cacheSet s "qr_code" qr (some 300) now

/-- `CacheManager.get_qr_code()`: `get("qr_code")`. -/
def getQrCode (s : CacheState String) (now : Nat) :
    Option String × CacheState String :=
  cacheGet s "qr_code" now

/-! ## Chat message collections (`CacheManager.add_chat_message`)

A cached message is a JSON object; the fields relevant to
`add_chat_message` are `id` and `timestamp` (an ISO-8601 string, compared
lexicographically by Python's sort), plus opaque content. -/

/-- A chat message record as stored in the per-chat collection. -/
structure Msg where
  id : String
  timestamp : String
  content : String
deriving Repr, DecidableEq

/-- Whether some stored message has the given id
(the membership scan of the `for i, msg in enumerate(messages)` loop). -/
def containsId (mid : String) (msgs : List Msg) : Bool :=
  msgs.any (fun m => m.id == mid)

/-- The replace branch of `add_chat_message`: `messages[i] = message` at
the first index whose stored id equals the new message's id, then return
(no re-sort). -/
def replaceFirst (m : Msg) : List Msg → List Msg
  | [] => []
  | x :: xs => if x.id == m.id then m :: xs else x :: replaceFirst m xs

/-- Lexicographic comparison of character code points: how Python
compares the timestamp strings handed to `sort`. -/
def strLtChars : List Char → List Char → Bool
  | [], [] => false
  | [], _ :: _ => true
  | _ :: _, [] => false
  | a :: as, b :: bs =>
    if a.toNat < b.toNat then true
    else if b.toNat < a.toNat then false
    else strLtChars as bs

/-- Python's `<` on strings, applied to the underlying character list. -/
def strLt (a b : String) : Bool := strLtChars a.data b.data

/-- Stable insertion for descending-timestamp order: the new element goes
after every already-placed element whose timestamp is ≥ its own. -/
def insertTsDesc (m : Msg) : List Msg → List Msg
  | [] => [m]
  | x :: xs =>
    if strLt x.timestamp m.timestamp then m :: x :: xs
    else x :: insertTsDesc m xs

/-- Python's `messages.sort(key=lambda m: m.get("timestamp", ""),
reverse=True)`: a stable sort, descending by timestamp string. -/
def pySortTsDesc (msgs : List Msg) : List Msg :=
  msgs.foldl (fun acc m => insertTsDesc m acc) []

/-- `CacheManager.add_chat_message`, collection-level: if the id already
occurs, replace the first matching record in place and write back at
once; otherwise append the message, re-sort descending by timestamp, and
write back. -/
def addChatMessage (msgs : List Msg) (m : Msg) : List Msg :=
  if containsId m.id msgs then replaceFirst m msgs
  else pySortTsDesc (msgs ++ [m])

/-- Pairwise check that a collection is in descending timestamp order. -/
def tsSortedDesc : List Msg → Bool
  | [] => true
  | [_] => true
  | a :: b :: rest => (!strLt a.timestamp b.timestamp) && tsSortedDesc (b :: rest)

/-! ## Gateway client model (`src/websocket/client.py`)

`WhatsAppGatewayClient` state is threaded explicitly. Futures in
`pending_commands` are modelled by their id plus a `done` flag; event
handlers are opaque callables modelled by an identifier plus whether the
call raises. Awaited outcomes (response arrival, timeout, transport
error) are supplied as explicit arguments. -/

/-- Python exception classes the client raises or catches. -/
inductive PyExcClass where
  | connectionError
  | timeoutError
  | wsException
  | generic
deriving Repr, DecidableEq

/-- A raised Python exception: its class and message. -/
structure PyErr where
  cls : PyExcClass
  msg : String
deriving Repr, DecidableEq

/-- One entry of `self.pending_commands`: the correlation id and whether
the stored future is already done. -/
structure PendingEntry where
  id : String
  done : Bool
deriving Repr, DecidableEq

/-- An opaque registered callback: an identity (Python compares handlers
by object identity in `list.remove`) and whether invoking it raises. -/
structure Handler where
  hid : Nat
  raises : Bool
deriving Repr, DecidableEq

/-- Mutable state of a `WhatsAppGatewayClient`. `hasWebsocket` models
`self.websocket is not None`; the `tasks` set and callback lists that the
tracked claims never read are omitted. -/
structure ClientState where
  connected : Bool
  authenticated : Bool
  hasWebsocket : Bool
  pending : List PendingEntry
  eventHandlers : List (String × List Handler)
deriving Repr, DecidableEq

/-- `WhatsAppGatewayClient.is_connected`:
`self.connected and self.websocket is not None`. -/
def isConnected (s : ClientState) : Bool :=
  s.connected && s.hasWebsocket

/-- Whether some pending entry carries the given correlation id. -/
def hasPending (ps : List PendingEntry) (cid : String) : Bool :=
  ps.any (fun p => p.id == cid)

/-- `self.pending_commands.pop(command_id, None)`: drop the entry with
that id (dict keys are unique, so dropping every match coincides). -/
def popPending (ps : List PendingEntry) (cid : String) : List PendingEntry :=
  ps.filter (fun p => !(p.id == cid))

/-- The error raised by `send_command` when `is_connected()` is false:
`ConnectionError("Not connected to WhatsApp Gateway")`. -/
def notConnectedErr : PyErr :=
  ⟨PyExcClass.connectionError, "Not connected to WhatsApp Gateway"⟩

/-- The error set on pending futures when the transport closes:
`ConnectionError("Connection closed")`. -/
def connClosedErr : PyErr :=
  ⟨PyExcClass.connectionError, "Connection closed"⟩

/-- The serialized command envelope written to the websocket (the
`timestamp` field is always `None` on send). -/
structure CommandMsg where
  id : String
  command : String
deriving Repr, DecidableEq

/-- A response envelope as delivered to a resolved future. -/
structure Envelope where
  id : String
  payload : String
deriving Repr, DecidableEq

/-- How one `send_command` call's awaits play out: the response arrives
in time, `asyncio.wait_for` times out, `websocket.send` raises a
`WebSocketException`, or some other exception escapes. -/
inductive SendOutcome where
  | success (env : Envelope)
  | timeout
  | wsError (m : String)
  | otherError (e : PyErr)
deriving Repr, DecidableEq

/-- Result of one `send_command` call: the returned envelope or raised
exception, the transport writes attempted, and the post-call state. -/
structure SendResult where
  result : Except PyErr Envelope
  writes : List CommandMsg
  state : ClientState
deriving Repr

/-- `WhatsAppGatewayClient.send_command(command, data, timeout)` with the
generated uuid `cid` and the awaited outcome made explicit. When not
connected it raises before any write or registration. Otherwise it
registers the pending future, writes the envelope, and then: a response
resolves the future (the receive loop pops the entry before resolving);
a timeout pops the entry and raises `TimeoutError`; a
`WebSocketException` pops and raises `ConnectionError`; any other
exception pops and re-raises. -/
def sendCommand (s : ClientState) (cmd : String) (cid : String)
    (outcome : SendOutcome) : SendResult :=
  if !isConnected s then ⟨Except.error notConnectedErr, [], s⟩
  else
    let registered := s.pending ++ [⟨cid, false⟩]
    let w : List CommandMsg := [⟨cid, cmd⟩]
    match outcome with
    | SendOutcome.success env =>
      ⟨Except.ok env, w, { s with pending := popPending registered cid }⟩
    | SendOutcome.timeout =>
      ⟨Except.error ⟨PyExcClass.timeoutError, "Command " ++ cmd ++ " timed out"⟩,
        w, { s with pending := popPending registered cid }⟩
    | SendOutcome.wsError m =>
      ⟨Except.error ⟨PyExcClass.connectionError, "WebSocket error: " ++ m⟩,
        w, { s with pending := popPending registered cid }⟩
    | SendOutcome.otherError e =>
      ⟨Except.error e, w, { s with pending := popPending registered cid }⟩

/-- The `type == "response"` branch of `_receive_messages`: if the id is
pending, pop it and (when the future is not done) set its result; an
unknown or late id changes nothing. The returned flag says whether a
waiter was resolved. -/
def handleResponse (s : ClientState) (cid : String) : ClientState × Bool :=
  match s.pending.find? (fun p => p.id == cid) with
  | some entry => ({ s with pending := popPending s.pending cid }, !entry.done)
  | none => (s, false)

/-- The `type == "error"` branch of `_receive_messages`: same lookup, but
the future is rejected with the remote-supplied message. -/
def handleError (s : ClientState) (cid : String) : ClientState × Bool :=
  match s.pending.find? (fun p => p.id == cid) with
  | some entry => ({ s with pending := popPending s.pending cid }, !entry.done)
  | none => (s, false)

/-- The rejections performed by the `except ConnectionClosed` sweep:
every pending future that is not done gets
`ConnectionError("Connection closed")`. -/
def rejectPending (ps : List PendingEntry) : List (String × PyErr) :=
  (ps.filter (fun p => !p.done)).map (fun p => (p.id, connClosedErr))

/-- The `except ConnectionClosed` branch of `_receive_messages`: clear
`connected`, reject every not-done pending future, empty the pending map
(the reconnect task it also spawns is modelled by `reconnectLoop`). -/
def onConnectionClosed (s : ClientState) :
    ClientState × List (String × PyErr) :=
  ({ s with connected := false, pending := [] }, rejectPending s.pending)

/-- The `type == "event"` branch of `_receive_messages`: a non-empty
event name updates the authenticated flag (`authenticated` sets it,
`disconnected` clears it) and is then dispatched to handlers, which do
not mutate client state. -/
def handleEvent (s : ClientState) (name : String) : ClientState :=
  if name == "" then s
  else if name == "authenticated" then { s with authenticated := true }
  else if name == "disconnected" then { s with authenticated := false }
  else s

/-- `WhatsAppGatewayClient.disconnect()`: clear `connected`, cancel
tasks, close and drop the websocket; `authenticated` is not touched. -/
def disconnectCall (s : ClientState) : ClientState :=
  { s with connected := false, hasWebsocket := false }

/-- `WhatsAppGatewayClient.connect()` with the transport outcome made
explicit: a no-op when already connected; on success set the websocket
and `connected`; on failure clear `connected` (the websocket field keeps
its old value, since the assignment raised). -/
def connectCall (s : ClientState) (ok : Bool) : ClientState :=
  if s.connected then s
  else if ok then { s with connected := true, hasWebsocket := true }
  else { s with connected := false }

/-! ## Event handler registry (`register_event_handler` /
`unregister_event_handler` / `_dispatch_event`)

`self.event_handlers` is a dict from event name to a Python list of
handlers, modelled as an insertion-ordered association list with unique
keys. -/

/-- Lookup of `self.event_handlers[event]`, with `[]` when the key is
absent (matching the `if event in self.event_handlers` guards). -/
def handlersFor : List (String × List Handler) → String → List Handler
  | [], _ => []
  | p :: rest, e => if p.1 == e then p.2 else handlersFor rest e

/-- `register_event_handler(event, handler)`: create the list if the
event is new (a fresh dict key is appended last), then append the
handler. Duplicates are allowed. -/
def registerEventHandler :
    List (String × List Handler) → String → Handler →
    List (String × List Handler)
  | [], e, h => [(e, [h])]
  | p :: rest, e, h =>
    if p.1 == e then (p.1, p.2 ++ [h]) :: rest
    else p :: registerEventHandler rest e h

/-- Python's `list.remove(handler)` wrapped in `try/except ValueError`:
drop the first matching element, or leave the list unchanged. -/
def removeFirstHandler (h : Handler) : List Handler → List Handler
  | [] => []
  | x :: xs => if x == h then xs else x :: removeFirstHandler h xs

/-- `unregister_event_handler(event, handler)`: remove the first
matching handler from that event's list, if the event is known. -/
def unregisterEventHandler :
    List (String × List Handler) → String → Handler →
    List (String × List Handler)
  | [], _, _ => []
  | p :: rest, e, h =>
    if p.1 == e then (p.1, removeFirstHandler h p.2) :: rest
    else p :: unregisterEventHandler rest e h

/-- Observable effect of `_dispatch_event`: the handlers invoked (in
order) and the failures caught and logged. -/
structure DispatchResult where
  invoked : List Nat
  loggedErrors : List Nat
deriving Repr, DecidableEq

/-- The `for handler in self.event_handlers[event_type]` loop: each
handler is awaited in turn inside `try/except`, so a raising handler is
logged and the loop continues with the next one. -/
def dispatchRun : List Handler → DispatchResult
  | [] => ⟨[], []⟩
  | h :: rest =>
    let r := dispatchRun rest
    ⟨h.hid :: r.invoked,
      if h.raises then h.hid :: r.loggedErrors else r.loggedErrors⟩

/-- `_dispatch_event(event_type, data)`: run the registered handlers of
that event, if any. The function is total: dispatch always completes. -/
def dispatchEvent (hs : List (String × List Handler)) (e : String) :
    DispatchResult :=
  dispatchRun (handlersFor hs e)

/-! ## Operation-level transition system

One step per externally observable operation of the client, used to
state trace invariants (in particular about the `authenticated` flag). -/

/-- One operation applied to a `WhatsAppGatewayClient`. -/
inductive ClientOp where
  | recvEvent (name : String)
  | recvResponse (cid : String)
  | recvError (cid : String)
  | transportClosed
  | disconnectOp
  | connectOp (ok : Bool)
  | sendCommandOp (cmd : String) (cid : String) (outcome : SendOutcome)
deriving Repr, DecidableEq

/-- The client's state transition for one operation, assembled from the
per-method embeddings above. -/
def step (s : ClientState) : ClientOp → ClientState
  | ClientOp.recvEvent name => handleEvent s name
  | ClientOp.recvResponse cid => (handleResponse s cid).1
  | ClientOp.recvError cid => (handleError s cid).1
  | ClientOp.transportClosed => (onConnectionClosed s).1
  | ClientOp.disconnectOp => disconnectCall s
  | ClientOp.connectOp ok => connectCall s ok
  | ClientOp.sendCommandOp cmd cid outcome => (sendCommand s cmd cid outcome).state

/-- A whole run: fold `step` over a sequence of operations. -/
def run (s : ClientState) (ops : List ClientOp) : ClientState :=
  ops.foldl step s

/-- How the authenticated flag alone evolves under one operation: set by
an inbound `authenticated` event, cleared by an inbound `disconnected`
event, untouched by everything else. -/
def authEvolve (auth : Bool) : ClientOp → Bool
  | ClientOp.recvEvent name =>
    if name == "authenticated" then true
    else if name == "disconnected" then false
    else auth
  | _ => auth

/-! ## Reconnection loop (`WhatsAppGatewayClient._reconnect`)

The loop runs while `attempt < max_reconnect_attempts and not
self.connected`; each iteration sleeps `reconnect_interval`, calls
`connect()`, and returns as soon as the client is connected. The result
of the k-th `connect()` call is supplied by the `outcomes` oracle (a
missing entry means the attempt failed). -/

/-- Observable summary of one `_reconnect` execution. -/
structure ReconnectRun where
  attempts : Nat
  sleeps : List Nat
  connected : Bool
deriving Repr, DecidableEq

/-- The `while` loop of `_reconnect`, with `remaining =
max_reconnect_attempts - attempt` as fuel and the loop entered with
`self.connected` false. -/
def reconnectLoop (interval : Nat) : Nat → List Bool → ReconnectRun
  | 0, _ => ⟨0, [], false⟩
  | remaining + 1, outcomes =>
    if outcomes.headD false then ⟨1, [interval], true⟩
    else
      let rest := reconnectLoop interval remaining outcomes.tail
      ⟨rest.attempts + 1, interval :: rest.sleeps, rest.connected⟩

/-- Index of the first successful connect among the outcomes, if any. -/
def firstSuccess : List Bool → Option Nat
  | [] => none
  | true :: _ => some 0
  | false :: rest => (firstSuccess rest).map (· + 1)

/-! ## Lemmas about the cache tiers -/

/-- After `memWrite k v now`, looking up `k` finds the fresh entry. -/
lemma find?_memWrite {V : Type} (k : String) (v : V) (now : Nat)
    (l : List (MemEntry V)) :
    (memWrite k v now l).find? (fun e => e.key == k) = some ⟨k, v, now⟩ := by
  induction l with
  | nil => simp [memWrite, List.find?]
  | cons e rest ih =>
    by_cases h : e.key == k
    · simp [memWrite, h, List.find?]
    · simp only [memWrite, h, if_neg, Bool.false_eq_true, not_false_iff,
        if_false]
      rw [List.find?_cons_of_neg _ (by simp_all), ih]

/-- After `memSet`, looking up the written key finds the fresh entry. -/
lemma find?_memSet {V : Type} (mem : List (MemEntry V)) (k : String) (v : V)
    (now : Nat) :
    (memSet mem k v now).find? (fun e => e.key == k) = some ⟨k, v, now⟩ :=
  find?_memWrite k v now (memEvict mem)

/-- A memory-tier read of a key right after it was written: a hit exactly
when the tier's max age is positive. -/
lemma memGet_memSet_self {V : Type} (mem : List (MemEntry V)) (maxAge : Nat)
    (k : String) (v : V) (now : Nat) :
    memGet (memSet mem k v now) maxAge k now =
      if 0 < maxAge then some v else none := by
  unfold memGet
  rw [find?_memSet]
  simp [Nat.sub_self]

/-- After `diskSet k v e`, looking up `k` finds the fresh entry. -/
lemma find?_diskSet {V : Type} (k : String) (v : V) (e : Nat)
    (l : List (DiskEntry V)) :
    (diskSet k v e l).find? (fun d => d.key == k) = some ⟨k, v, e⟩ := by
  induction l with
  | nil => simp [diskSet, List.find?]
  | cons d rest ih =>
    by_cases h : d.key == k
    · simp [diskSet, h, List.find?]
    · simp only [diskSet, h, Bool.false_eq_true, not_false_iff, if_false]
      rw [List.find?_cons_of_neg _ (by simp_all), ih]

/-- A disk-tier read of a key right after it was written with expiry
instant `e`: a hit exactly while `now < e`. -/
lemma diskGet_diskSet_self {V : Type} (disk : List (DiskEntry V))
    (k : String) (v : V) (e now : Nat) :
    diskGet (diskSet k v e disk) k now = if now < e then some v else none := by
  unfold diskGet
  rw [find?_diskSet]

/-- C3: for every state, key, value and per-call ttl, a `get(k)` performed
immediately after `set(k, v, ttl)` — so before the (positive) effective
TTL has elapsed — returns `v`: the cache round-trips. -/
theorem cache_set_get_round_trip {V : Type} (s : CacheState V) (k : String)
    (v : V) (ttl : Option Nat) (now : Nat)
    (h : 0 < ttlOrDefault ttl s.defaultTtl) :
    (cacheGet (cacheSet s k v ttl now) k now).1 = some v := by
  unfold cacheGet cacheSet
  by_cases hd : 0 < s.defaultTtl
  · simp [memGet_memSet_self, hd]
  · simp only [memGet_memSet_self, hd, if_false]
    simp [diskGet_diskSet_self, Nat.lt_add_of_pos_right h]

/-- Witness for C3 at a concrete input: default TTL 10, no per-call TTL. -/
theorem cache_set_get_round_trip_witness :
    0 < ttlOrDefault none (10 : Nat) ∧
    (cacheGet (cacheSet (⟨10, [], []⟩ : CacheState Nat) "k" 7 none 5)
      "k" 5).1 = some 7 :=
  ⟨by decide,
    cache_set_get_round_trip (⟨10, [], []⟩ : CacheState Nat) "k" 7 none 5
      (by decide)⟩

/-- The state of the repository's own `test_ttl` scenario: a manager with
default TTL 10 after `set("x", 1, ttl=1)` at time 0. -/
def ttlBugState : CacheState Nat :=
  cacheSet (⟨10, [], []⟩ : CacheState Nat) "x" 1 (some 1) 0

/-- C2, evaluated at the failing input: two seconds after
`set("x", 1, ttl=1)` the per-call TTL has long expired (the disk tier
already reports a miss), yet `get("x")` still returns the value from the
memory tier, whose age bound is the manager default — and likewise a QR
code set with its fixed 300-second TTL is still returned 400 seconds
later when the default TTL is 86400. -/
theorem cache_ttl_bug_eval :
    (cacheGet ttlBugState "x" 2).1 = some 1 ∧
    diskGet ttlBugState.disk "x" 2 = none ∧
    (getQrCode (setQrCode (⟨86400, [], []⟩ : CacheState String) "QR" 0)
      400).1 = some "QR" := by
  refine ⟨?_, ?_, ?_⟩ <;> decide

/-- The concrete collection for the C1 counterexample: two messages in
descending timestamp order. -/
def c1Msgs : List Msg := [⟨"a", "2", "hello"⟩, ⟨"b", "1", "world"⟩]

/-- The C1 counterexample update: a message whose id `"b"` already occurs
but whose new timestamp `"3"` is the largest in the collection. -/
def c1New : Msg := ⟨"b", "3", "edited"⟩

/-- Counterexample to C1 as stated: inserting a message whose id already
occurs replaces the record in place but the written-back collection is
NOT re-sorted descending by timestamp (the replace branch of
`add_chat_message` returns before the sort). -/
theorem addChatMessage_replace_not_resorted :
    containsId c1New.id c1Msgs = true ∧
    addChatMessage c1Msgs c1New = [⟨"a", "2", "hello"⟩, ⟨"b", "3", "edited"⟩] ∧
    tsSortedDesc (addChatMessage c1Msgs c1New) = false := by
  refine ⟨?_, ?_, ?_⟩ <;> decide

/-- The replace branch decomposed: when some stored id matches, the
collection splits as `pre ++ x :: post` with `x` the first match, and
`replaceFirst` yields `pre ++ m :: post`. -/
lemma replaceFirst_spec (m : Msg) (msgs : List Msg)
    (h : containsId m.id msgs = true) :
    ∃ pre x post, msgs = pre ++ x :: post ∧ x.id = m.id ∧
      (∀ y ∈ pre, y.id ≠ m.id) ∧ replaceFirst m msgs = pre ++ m :: post := by
  induction msgs with
  | nil => simp [containsId] at h
  | cons a rest ih =>
    by_cases ha : a.id = m.id
    · exact ⟨[], a, rest, by simp, ha, by simp, by simp [replaceFirst, ha]⟩
    · have hrest : containsId m.id rest = true := by
        simp only [containsId, List.any_cons] at h
        rcases Bool.or_eq_true_iff.mp h with h1 | h1
        · exact absurd (by simpa using h1) ha
        · exact h1
      obtain ⟨pre, x, post, hsplit, hx, hpre, hrepl⟩ := ih hrest
      refine ⟨a :: pre, x, post, by simp [hsplit], hx, ?_, ?_⟩
      · intro y hy
        rcases List.mem_cons.mp hy with rfl | hy
        · exact ha
        · exact hpre y hy
      · simp only [replaceFirst]
        rw [if_neg (by simpa using ha), hrepl]
        simp

/-- C1 amended: for a message whose id already occurs in the collection,
`add_chat_message` leaves the length unchanged and replaces the first
matching stored record in place — the collection is written back in its
existing order, without being re-sorted. -/
theorem addChatMessage_replace_in_place (msgs : List Msg) (m : Msg)
    (h : containsId m.id msgs = true) :
    (addChatMessage msgs m).length = msgs.length ∧
    ∃ pre x post, msgs = pre ++ x :: post ∧ x.id = m.id ∧
      (∀ y ∈ pre, y.id ≠ m.id) ∧ addChatMessage msgs m = pre ++ m :: post := by
  obtain ⟨pre, x, post, hsplit, hx, hpre, hrepl⟩ := replaceFirst_spec m msgs h
  have hadd : addChatMessage msgs m = pre ++ m :: post := by
    unfold addChatMessage
    rw [if_pos h, hrepl]
  refine ⟨?_, pre, x, post, hsplit, hx, hpre, hadd⟩
  rw [hadd, hsplit]
  simp

/-- Witness for the amended C1 at the concrete counterexample input:
the update leaves the two-element collection at length two. -/
theorem addChatMessage_replace_in_place_witness :
    containsId c1New.id c1Msgs = true ∧
    (addChatMessage c1Msgs c1New).length = c1Msgs.length :=
  ⟨by decide, (addChatMessage_replace_in_place c1Msgs c1New (by decide)).1⟩

/-! ## Lemmas about the pending-command map -/

/-- Popping an id that was just appended undoes the append. -/
lemma popPending_append (ps : List PendingEntry) (cid : String) (d : Bool) :
    popPending (ps ++ [⟨cid, d⟩]) cid = popPending ps cid := by
  simp [popPending, List.filter_append]

/-- Popping an id that is not pending changes nothing. -/
lemma popPending_fresh (ps : List PendingEntry) (cid : String)
    (h : hasPending ps cid = false) : popPending ps cid = ps := by
  unfold popPending
  rw [List.filter_eq_self]
  intro p hp
  simp only [hasPending, List.any_eq_true, not_exists] at h
  have := List.any_eq_false.mp h p hp
  simpa using this

/-- An id that is not pending is not found by the receive loop's lookup. -/
lemma find?_pending_fresh (ps : List PendingEntry) (cid : String)
    (h : hasPending ps cid = false) :
    ps.find? (fun p => p.id == cid) = none := by
  rw [List.find?_eq_none]
  intro p hp
  simp only [hasPending] at h
  have := List.any_eq_false.mp h p hp
  simpa using this

/-- On any connected `send_command` call, the post-call pending map is
the pre-call map: the fresh correlation id is registered and then popped
on every single path. -/
lemma sendCommand_pending_restored (s : ClientState) (cmd cid : String)
    (outcome : SendOutcome) (hconn : isConnected s = true)
    (hfresh : hasPending s.pending cid = false) :
    (sendCommand s cmd cid outcome).state.pending = s.pending := by
  unfold sendCommand
  rw [hconn]
  cases outcome <;>
    simp [popPending_append, popPending_fresh s.pending cid hfresh]

/-- C4: when the transport closes with pending commands (whose futures
are, as the receive loop guarantees, not yet done), the handler clears
the connected flag, empties the pending map, and rejects every single
pending command with `ConnectionError("Connection closed")`. -/
theorem connectionClosed_rejects_all (s : ClientState)
    (h : ∀ p ∈ s.pending, p.done = false) :
    (onConnectionClosed s).1.connected = false ∧
    (onConnectionClosed s).1.pending = [] ∧
    (onConnectionClosed s).2 =
      s.pending.map (fun p => (p.id, connClosedErr)) := by
  refine ⟨rfl, rfl, ?_⟩
  unfold onConnectionClosed rejectPending
  have : s.pending.filter (fun p => !p.done) = s.pending := by
    rw [List.filter_eq_self]
    intro p hp
    simp [h p hp]
  rw [this]

/-- A concrete client state with two pending commands, used as witness
input. -/
def twoPendingState : ClientState :=
  ⟨true, true, true, [⟨"cid-a", false⟩, ⟨"cid-b", false⟩], []⟩

/-- Witness for C4 at a concrete state with N = 2 pending commands. -/
theorem connectionClosed_rejects_all_witness :
    (onConnectionClosed twoPendingState).1.connected = false ∧
    (onConnectionClosed twoPendingState).1.pending = [] ∧
    (onConnectionClosed twoPendingState).2 =
      twoPendingState.pending.map (fun p => (p.id, connClosedErr)) :=
  connectionClosed_rejects_all twoPendingState (by decide)

/-- C5: a `send_command` whose timeout elapses removes its pending entry
and raises `TimeoutError`; a response envelope with that correlation id
arriving afterwards is silently dropped — `handleResponse` resolves no
waiter, raises nothing, and leaves the state unchanged. -/
theorem sendCommand_timeout_drops_late_response (s : ClientState)
    (cmd cid : String) (hconn : isConnected s = true)
    (hfresh : hasPending s.pending cid = false) :
    (sendCommand s cmd cid SendOutcome.timeout).result =
      Except.error ⟨PyExcClass.timeoutError, "Command " ++ cmd ++ " timed out"⟩ ∧
    hasPending (sendCommand s cmd cid SendOutcome.timeout).state.pending cid
      = false ∧
    handleResponse (sendCommand s cmd cid SendOutcome.timeout).state cid =
      ((sendCommand s cmd cid SendOutcome.timeout).state, false) := by
  have hp := sendCommand_pending_restored s cmd cid SendOutcome.timeout
    hconn hfresh
  refine ⟨?_, ?_, ?_⟩
  · simp [sendCommand, hconn]
  · rw [hp]
    exact hfresh
  · unfold handleResponse
    rw [hp, find?_pending_fresh s.pending cid hfresh]

/-- A concrete connected client state with one unrelated pending command,
used as witness input. -/
def connectedState : ClientState :=
  ⟨true, false, true, [⟨"cid-other", false⟩], []⟩

/-- Witness for C5 at a concrete connected state and fresh id. -/
theorem sendCommand_timeout_witness :
    isConnected connectedState = true ∧
    hasPending connectedState.pending "cid-9" = false ∧
    ((sendCommand connectedState "getChats" "cid-9" SendOutcome.timeout).result =
      Except.error
        ⟨PyExcClass.timeoutError, "Command " ++ "getChats" ++ " timed out"⟩ ∧
     hasPending (sendCommand connectedState "getChats" "cid-9"
        SendOutcome.timeout).state.pending "cid-9" = false ∧
     handleResponse (sendCommand connectedState "getChats" "cid-9"
        SendOutcome.timeout).state "cid-9" =
       ((sendCommand connectedState "getChats" "cid-9"
          SendOutcome.timeout).state, false)) :=
  ⟨by decide, by decide,
    sendCommand_timeout_drops_late_response connectedState "getChats" "cid-9"
      (by decide) (by decide)⟩

/-- A concrete disconnected client state, used for the C6
counterexample and witnesses. -/
def disconnectedState : ClientState :=
  ⟨false, false, false, [], []⟩

/-- Counterexample to C6 as stated: the not-connected failure of
`send_command` is raised as a `ConnectionError` — the very same Python
exception class used for transport-level failures — so it is not a
condition distinct from `ConnectionError` (only its fixed message
differs; `Timeout` does use a distinct class). -/
theorem sendCommand_notConnected_same_class :
    (sendCommand disconnectedState "getContacts" "cid-1"
        SendOutcome.timeout).result = Except.error notConnectedErr ∧
    notConnectedErr.cls = PyExcClass.connectionError ∧
    (sendCommand connectedState "getContacts" "cid-other"
        (SendOutcome.wsError "boom")).result =
      Except.error ⟨PyExcClass.connectionError, "WebSocket error: boom"⟩ ∧
    notConnectedErr.cls =
      (PyErr.mk PyExcClass.connectionError "WebSocket error: boom").cls :=
  ⟨rfl, rfl, rfl, rfl⟩

/-- C6 amended: a `send_command` call made while `is_connected()` is
false fails with `ConnectionError("Not connected to WhatsApp Gateway")`
— distinguishable from `Timeout` by exception class but sharing the
`ConnectionError` class with transport failures — performs no transport
write, registers no pending command, and leaves the state unchanged. -/
theorem sendCommand_notConnected (s : ClientState) (cmd cid : String)
    (outcome : SendOutcome) (h : isConnected s = false) :
    sendCommand s cmd cid outcome =
      ⟨Except.error notConnectedErr, [], s⟩ := by
  unfold sendCommand
  rw [h]
  rfl

/-- Witness for the amended C6 at a concrete disconnected state. -/
theorem sendCommand_notConnected_witness :
    isConnected disconnectedState = false ∧
    sendCommand disconnectedState "getQRCode" "cid-2" SendOutcome.timeout =
      ⟨Except.error notConnectedErr, [], disconnectedState⟩ :=
  ⟨by decide,
    sendCommand_notConnected disconnectedState "getQRCode" "cid-2"
      SendOutcome.timeout (by decide)⟩

/-- C10: every `send_command` call that fails after registering its
pending command — timeout, transport error during send, or any other
exception — pops its own correlation id again before the failure
propagates, leaving the pending map exactly as it was before the call. -/
theorem sendCommand_failure_no_stale_pending (s : ClientState)
    (cmd cid : String) (outcome : SendOutcome) (e : PyErr)
    (hconn : isConnected s = true)
    (hfresh : hasPending s.pending cid = false)
    (_hfail : (sendCommand s cmd cid outcome).result = Except.error e) :
    (sendCommand s cmd cid outcome).state.pending = s.pending ∧
    hasPending (sendCommand s cmd cid outcome).state.pending cid = false := by
  have hp := sendCommand_pending_restored s cmd cid outcome hconn hfresh
  exact ⟨hp, by rw [hp]; exact hfresh⟩

/-- Witness for C10: a concrete timed-out call at a connected state. -/
theorem sendCommand_failure_no_stale_pending_witness :
    isConnected connectedState = true ∧
    hasPending connectedState.pending "cid-z" = false ∧
    ((sendCommand connectedState "sendMessage" "cid-z"
        SendOutcome.timeout).state.pending = connectedState.pending ∧
      hasPending (sendCommand connectedState "sendMessage" "cid-z"
        SendOutcome.timeout).state.pending "cid-z" = false) :=
  ⟨by decide, by decide,
    sendCommand_failure_no_stale_pending connectedState "sendMessage" "cid-z"
      SendOutcome.timeout
      ⟨PyExcClass.timeoutError, "Command sendMessage timed out"⟩
      (by decide) (by decide) rfl⟩

/-! ## The authenticated flag across operations (C7) -/

/-- One step changes the authenticated flag exactly as `authEvolve`
prescribes: only inbound `authenticated` / `disconnected` events touch
it. -/
lemma step_authenticated (s : ClientState) (op : ClientOp) :
    (step s op).authenticated = authEvolve s.authenticated op := by
  cases op with
  | recvEvent name =>
    simp only [step, handleEvent, authEvolve]
    by_cases h0 : name == ""
    · have : name = "" := by simpa using h0
      subst this
      simp
    · simp only [h0, Bool.false_eq_true, if_false]
      by_cases h1 : name == "authenticated"
      · simp [h1]
      · simp only [h1, Bool.false_eq_true, if_false]
        by_cases h2 : name == "disconnected"
        · simp [h2]
        · simp [h2]
  | recvResponse cid =>
    simp only [step, handleResponse, authEvolve]
    cases s.pending.find? (fun p => p.id == cid) <;> rfl
  | recvError cid =>
    simp only [step, handleError, authEvolve]
    cases s.pending.find? (fun p => p.id == cid) <;> rfl
  | transportClosed => rfl
  | disconnectOp => rfl
  | connectOp ok =>
    simp only [step, connectCall, authEvolve]
    by_cases hc : s.connected
    · simp [hc]
    · cases ok <;> simp [hc]
  | sendCommandOp cmd cid outcome =>
    simp only [step, sendCommand, authEvolve]
    by_cases hc : isConnected s
    · simp only [hc, Bool.not_true, Bool.false_eq_true, if_false]
      cases outcome <;> rfl
    · simp only [Bool.not_eq_true] at hc
      simp [hc]

/-- Trace version of `step_authenticated`, by induction on the run. -/
lemma run_authenticated (s : ClientState) (ops : List ClientOp) :
    (run s ops).authenticated = ops.foldl authEvolve s.authenticated := by
  induction ops generalizing s with
  | nil => rfl
  | cons op rest ih =>
    simp only [run, List.foldl_cons]
    rw [← step_authenticated s op]
    exact ih (step s op)

/-- C7: over every sequence of operations the authenticated flag evolves
exactly by `authEvolve`: it becomes true only when an inbound event
envelope named `authenticated` is processed and false only when one
named `disconnected` is processed — in particular a transport-level
close and an explicit `disconnect()` leave it unchanged. -/
theorem authenticated_only_by_events (s : ClientState) (op : ClientOp)
    (ops : List ClientOp) :
    (step s op).authenticated = authEvolve s.authenticated op ∧
    (run s ops).authenticated = ops.foldl authEvolve s.authenticated ∧
    (step s ClientOp.transportClosed).authenticated = s.authenticated ∧
    (step s ClientOp.disconnectOp).authenticated = s.authenticated :=
  ⟨step_authenticated s op, run_authenticated s ops, rfl, rfl⟩

/-! ## Event dispatcher (C8) -/

/-- Registering appends to the event's handler list (which is created on
first use); duplicates are allowed. -/
lemma handlersFor_register (hs : List (String × List Handler)) (e : String)
    (h : Handler) :
    handlersFor (registerEventHandler hs e h) e = handlersFor hs e ++ [h] := by
  induction hs with
  | nil => simp [registerEventHandler, handlersFor]
  | cons p rest ih =>
    by_cases hp : p.1 == e
    · simp [registerEventHandler, handlersFor, hp]
    · simp [registerEventHandler, handlersFor, hp, ih]

/-- Unregistering removes the first matching handler from the event's
list and nothing else. -/
lemma handlersFor_unregister (hs : List (String × List Handler)) (e : String)
    (h : Handler) :
    handlersFor (unregisterEventHandler hs e h) e =
      removeFirstHandler h (handlersFor hs e) := by
  induction hs with
  | nil => simp [unregisterEventHandler, handlersFor, removeFirstHandler]
  | cons p rest ih =>
    by_cases hp : p.1 == e
    · simp [unregisterEventHandler, handlersFor, hp]
    · simp [unregisterEventHandler, handlersFor, hp, ih]

/-- The dispatch loop invokes every handler of the list, in order. -/
lemma dispatchRun_invoked (l : List Handler) :
    (dispatchRun l).invoked = l.map Handler.hid := by
  induction l with
  | nil => rfl
  | cons h rest ih => simp [dispatchRun, ih]

/-- The dispatch loop logs exactly the raising handlers, in order. -/
lemma dispatchRun_logged (l : List Handler) :
    (dispatchRun l).loggedErrors = (l.filter Handler.raises).map Handler.hid := by
  induction l with
  | nil => rfl
  | cons h rest ih =>
    by_cases hr : h.raises <;> simp [dispatchRun, List.filter_cons, hr, ih]

/-- C8: registration appends (insertion order, duplicates allowed);
dispatch invokes every currently-registered handler of the event in
registration order and always completes, with raising handlers caught,
logged, and unable to stop the remaining handlers; unregistration
removes only the first matching handler. -/
theorem dispatcher_contract (hs : List (String × List Handler))
    (e : String) (h : Handler) :
    handlersFor (registerEventHandler hs e h) e = handlersFor hs e ++ [h] ∧
    (dispatchEvent hs e).invoked = (handlersFor hs e).map Handler.hid ∧
    (dispatchEvent hs e).loggedErrors =
      ((handlersFor hs e).filter Handler.raises).map Handler.hid ∧
    handlersFor (unregisterEventHandler hs e h) e =
      removeFirstHandler h (handlersFor hs e) :=
  ⟨handlersFor_register hs e h, dispatchRun_invoked (handlersFor hs e),
    dispatchRun_logged (handlersFor hs e), handlersFor_unregister hs e h⟩

/-! ## Reconnection loop bounds (C9) -/

/-- The index of the first successful outcome is inside the list. -/
lemma firstSuccess_lt_length :
    ∀ (l : List Bool) (k : Nat), firstSuccess l = some k → k < l.length := by
  intro l
  induction l with
  | nil => intro k h; simp [firstSuccess] at h
  | cons b rest ih =>
    intro k h
    cases b with
    | true =>
      simp only [firstSuccess, Option.some_inj] at h
      subst h
      exact Nat.succ_pos rest.length
    | false =>
      simp only [firstSuccess] at h
      cases hf : firstSuccess rest with
      | none => rw [hf] at h; simp at h
      | some j =>
        rw [hf] at h
        simp at h
        have := ih j hf
        subst h
        simp only [List.length_cons]
        omega

/-- Full characterisation of one `_reconnect` run: the number of
attempts, the final connected flag, and the sleeps performed, in terms
of the first successful connect among the allowed attempts. -/
lemma reconnectLoop_spec (interval : Nat) :
    ∀ (maxA : Nat) (outcomes : List Bool),
    (reconnectLoop interval maxA outcomes).attempts =
      (match firstSuccess (outcomes.take maxA) with
       | some k => k + 1
       | none => maxA) ∧
    (reconnectLoop interval maxA outcomes).connected =
      (firstSuccess (outcomes.take maxA)).isSome ∧
    (reconnectLoop interval maxA outcomes).sleeps =
      List.replicate (reconnectLoop interval maxA outcomes).attempts interval := by
  intro maxA
  induction maxA with
  | zero => intro outcomes; simp [reconnectLoop, firstSuccess]
  | succ r ih =>
    intro outcomes
    cases outcomes with
    | nil =>
      obtain ⟨h1, h2, h3⟩ := ih []
      have hstep : reconnectLoop interval (r + 1) [] =
          ⟨(reconnectLoop interval r []).attempts + 1,
            interval :: (reconnectLoop interval r []).sleeps,
            (reconnectLoop interval r []).connected⟩ := by
        simp [reconnectLoop]
      rw [hstep]
      simp only [List.take_nil, firstSuccess] at h1 h2 h3 ⊢
      refine ⟨by rw [h1], by rw [h2], ?_⟩
      rw [h3, h1, List.replicate_succ]
    | cons b rest =>
      cases b with
      | true =>
        simp [reconnectLoop, List.take_succ_cons, firstSuccess]
      | false =>
        obtain ⟨h1, h2, h3⟩ := ih rest
        have hstep : reconnectLoop interval (r + 1) (false :: rest) =
            ⟨(reconnectLoop interval r rest).attempts + 1,
              interval :: (reconnectLoop interval r rest).sleeps,
              (reconnectLoop interval r rest).connected⟩ := by
          simp [reconnectLoop]
        rw [hstep]
        simp only [List.take_succ_cons, firstSuccess]
        refine ⟨?_, ?_, ?_⟩
        · rw [h1]
          cases hf : firstSuccess (rest.take r) <;> simp [hf]
        · rw [h2]
          cases hf : firstSuccess (rest.take r) <;> simp [hf]
        · rw [h3, h1, List.replicate_succ]

/-- C9: the reconnection loop makes at most `max_reconnect_attempts`
connect attempts, sleeping the configured interval before each one; it
stops at the first attempt that establishes the connection; and when no
attempt within the bound succeeds it terminates after exactly the
maximum number of attempts with the connection still down (resumption
then requires an explicit `connect()` — the loop function has
returned). -/
theorem reconnect_bounded_attempts (interval maxA : Nat)
    (outcomes : List Bool) :
    (reconnectLoop interval maxA outcomes).attempts ≤ maxA ∧
    (reconnectLoop interval maxA outcomes).sleeps =
      List.replicate (reconnectLoop interval maxA outcomes).attempts interval ∧
    (reconnectLoop interval maxA outcomes).attempts =
      (match firstSuccess (outcomes.take maxA) with
       | some k => k + 1
       | none => maxA) ∧
    (reconnectLoop interval maxA outcomes).connected =
      (firstSuccess (outcomes.take maxA)).isSome := by
  obtain ⟨h1, h2, h3⟩ := reconnectLoop_spec interval maxA outcomes
  refine ⟨?_, h3, h1, h2⟩
  rw [h1]
  split
  · rename_i k hf
    have hk := firstSuccess_lt_length _ k hf
    have hlen : (outcomes.take maxA).length ≤ maxA := by
      rw [List.length_take]
      exact min_le_left _ _
    exact Nat.succ_le_of_lt (Nat.lt_of_lt_of_le hk hlen)
  · exact Nat.le_refl maxA
